import Mathlib

/-!
Verification of the carburetor-icing calculator (`src/App.tsx`).

Numbers are modelled as rationals (`ℚ`), the exact-arithmetic stand-in for
JavaScript's finite doubles.  The JavaScript builtin `parseFloat` is modelled
as a function `String → Option ℚ` where `none` stands for `NaN`; the stored
`temp`/`dewPoint` strings of the component state, which are either `''` or
the decimal rendering of a number (and satisfy `parseFloat (x.toString()) = x`),
are modelled as `Option ℚ` with `none` standing for the empty string.
-/

/-- The numeric value of a list of decimal digit characters
(most significant first). -/
def natOfDigits (l : List Char) : ℕ :=
  l.foldl (fun n c => 10 * n + (c.toNat - 48)) 0

/-- The exponent part of a JavaScript numeric literal: an optional sign
followed by digits.  Yields `0` when no digits follow (JavaScript's
`parseFloat` then simply does not consume the exponent marker). -/
def expValue (cs : List Char) : ℤ :=
  let (sgn, cs1) : ℤ × List Char :=
    match cs with
    | '-' :: r => (-1, r)
    | '+' :: r => (1, r)
    | _ => (1, cs)
  let ds := cs1.takeWhile Char.isDigit
  if ds = [] then 0 else sgn * (natOfDigits ds : ℤ)

/-- The pieces of the longest numeric-literal prefix of an input string:
sign, integer-part value, fraction-part value, number of fraction digits,
and exponent. -/
structure FloatParts where
  sgn : ℤ
  intPart : ℕ
  fracPart : ℕ
  fracLen : ℕ
  exp : ℤ
deriving DecidableEq, Repr

/-- The syntactic phase of the JavaScript builtin `parseFloat`: skip leading
whitespace, read an optional sign, integer digits, an optional fractional
part and an optional exponent, ignoring any trailing garbage; yield `none`
(standing for `NaN`) when no digits at all were read. -/
def parseFloatParts (cs : List Char) : Option FloatParts :=
  let cs0 := cs.dropWhile (fun c => c = ' ' ∨ c = '\t' ∨ c = '\n' ∨ c = '\r')
  let (sgn, cs1) : ℤ × List Char :=
    match cs0 with
    | '-' :: r => (-1, r)
    | '+' :: r => (1, r)
    | _ => (1, cs0)
  let intDs := cs1.takeWhile Char.isDigit
  let cs2 := cs1.dropWhile Char.isDigit
  let (fracDs, cs3) : List Char × List Char :=
    match cs2 with
    | '.' :: r => (r.takeWhile Char.isDigit, r.dropWhile Char.isDigit)
    | _ => ([], cs2)
  if intDs = [] ∧ fracDs = [] then none
  else
    let e : ℤ :=
      match cs3 with
      | 'e' :: r => expValue r
      | 'E' :: r => expValue r
      | _ => 0
    some ⟨sgn, natOfDigits intDs, natOfDigits fracDs, fracDs.length, e⟩

/-- The numeric value denoted by the parsed pieces,
`sign * (int + frac / 10 ^ fracLen) * 10 ^ exp`. -/
def partsValue (p : FloatParts) : ℚ :=
  (p.sgn : ℚ) * ((p.intPart : ℚ) + (p.fracPart : ℚ) / (10 : ℚ) ^ p.fracLen) * (10 : ℚ) ^ p.exp

/-- Model of the JavaScript builtin `parseFloat` on strings;
`none` stands for `NaN`. -/
def parseFloat (s : String) : Option ℚ :=
  (parseFloatParts s.data).map partsValue

/-- `App.tsx` line 25: `const cToF = (c: number) => c * 9/5 + 32;`. -/
def cToF (c : ℚ) : ℚ := c * 9 / 5 + 32

/-- `App.tsx` line 26: `const fToC = (f: number) => (f - 32) * 5/9;`. -/
def fToC (f : ℚ) : ℚ := (f - 32) * 5 / 9

/-- `App.tsx` lines 105–127: the body of `calculateIcingRisk` after the
`NaN` guard — the dew-point-depression computation and the priority-ordered
chain of threshold rules over already-parsed numbers. -/
def icingRiskCore (tempNum dewPointNum : ℚ) : String :=
  let dewPointDepression := tempNum - dewPointNum
  if tempNum ≥ 0 ∧ tempNum ≤ 20 ∧ dewPointDepression ≥ 0 ∧ dewPointDepression ≤ 8 then
    "Serious icing - any power"
  else if tempNum ≥ 0 ∧ tempNum ≤ 20 ∧ dewPointDepression ≥ 0 ∧ dewPointDepression ≤ 12 then
    "Serious icing - descent power"
  else if tempNum ≥ 0 ∧ tempNum ≤ 30 ∧ dewPointDepression ≥ 0 ∧ dewPointDepression ≤ 15 then
    "Moderate icing - cruise power, or Serious icing - descent power"
  else if tempNum ≥ 0 ∧ tempNum ≤ 40 ∧ dewPointDepression ≥ 0 ∧ dewPointDepression ≤ 25 then
    "Light icing - cruise or descent power"
  else
    "No icing"

/-- `App.tsx` lines 97–128: `calculateIcingRisk(temp, dewPoint)` — parse both
strings, return `null` (here `none`) when either is `NaN`, otherwise classify
via the rule chain (`icingRiskCore`). -/
def calculateIcingRisk (temp dewPoint : String) : Option String :=
  match parseFloat temp, parseFloat dewPoint with
  | some tempNum, some dewPointNum => some (icingRiskCore tempNum dewPointNum)
  | _, _ => none

/-- The rule table of spec §4.2, verbatim: for each row, the temperature
upper bound, the depression upper bound, and the resulting category (every
row also requires `0 ≤ T` and `0 ≤ D`).  Rows are in priority order. -/
def specRules : List (ℚ × ℚ × String) :=
  [(20, 8, "Serious icing - any power"),
   (20, 12, "Serious icing - descent power"),
   (30, 15, "Moderate icing - cruise power, or Serious icing - descent power"),
   (40, 25, "Light icing - cruise or descent power")]

/-- The classifier as the spec words it: compute the depression
`D = T − dewPoint`, scan the ordered rule table top to bottom, return the
category of the first row whose condition `0 ≤ T ≤ bound ∧ 0 ≤ D ≤ bound`
holds, and `No icing` when no row matches. -/
def specIcingCategory (T dewPt : ℚ) : String :=
  let D := T - dewPt
  match specRules.find? (fun r => decide (0 ≤ T ∧ T ≤ r.1 ∧ 0 ≤ D ∧ D ≤ r.2.1)) with
  | some r => r.2.2
  | none => "No icing"

/-- The display unit selected in the UI: `App.tsx` line 19,
`useState<'C' | 'F'>('C')`. -/
inductive TUnit where
  | C : TUnit
  | F : TUnit
deriving DecidableEq, Repr

/-- Rendering of a number into its display string (JavaScript's
`Number.prototype.toString`).  The handlers only ever write such strings into
the display fields and never read them back, so the exact rendering is
irrelevant to every property below. -/
def numToString (q : ℚ) : String :=
  toString q.num ++ (if q.den = 1 then "" else "/" ++ toString q.den)

/-- The component state of `CarbIcingCalculator` (`App.tsx` lines 17–22).
`temp` and `dewPoint` are the stored Celsius strings, each either `''`
(modelled `none`) or the rendering of a number (modelled `some` of its
value, using that `parseFloat` inverts `toString` on finite numbers);
`tempInput` and `dewPointInput` are the raw text of the two input boxes.
The derived `icingRisk` state (set by the effect at lines 130–133) is not
stored: it is recomputed by `classifyState` below. -/
structure AppState where
  temp : Option ℚ
  dewPoint : Option ℚ
  tempUnit : TUnit
  tempInput : String
  dewPointInput : String
deriving DecidableEq, Repr

/-- The initial component state: all inputs empty, unit Celsius
(`App.tsx` lines 17–22). -/
def initialState : AppState :=
  { temp := none, dewPoint := none, tempUnit := TUnit.C,
    tempInput := "", dewPointInput := "" }

/-- The effect at `App.tsx` lines 130–133: the derived icing risk is
`calculateIcingRisk(temp, dewPoint)` — on the stored values this is `none`
when either store is empty and `icingRiskCore` of the two numbers otherwise.
It reads only `temp` and `dewPoint`, never `tempUnit`. -/
def classifyState (s : AppState) : Option String :=
  match s.temp, s.dewPoint with
  | some tempNum, some dewPointNum => some (icingRiskCore tempNum dewPointNum)
  | _, _ => none

/-- `App.tsx` lines 41–66, `handleTempInputChange(value)`: store the raw
text; an empty string clears `temp`; an unparseable string returns early;
otherwise store the new temperature in Celsius and, when a stored dew point
would exceed it, pull the dew point down to the new temperature. -/
def handleTempInputChange (value : String) (s : AppState) : AppState :=
  let s1 := { s with tempInput := value }
  if value = "" then
    { s1 with temp := none }
  else
    match parseFloat value with
    | none => s1
    | some numValue =>
      let newTempNum := if s.tempUnit = TUnit.F then fToC numValue else numValue
      let s2 := { s1 with temp := some newTempNum }
      match s.dewPoint with
      | some dewPointNum =>
        if dewPointNum > newTempNum then
          let adjustedDewPoint := if s.tempUnit = TUnit.F then cToF newTempNum else newTempNum
          { s2 with dewPoint := some newTempNum,
                    dewPointInput := numToString adjustedDewPoint }
        else s2
      | none => s2

/-- `App.tsx` lines 68–95, `handleDewPointInputChange(value)`: store the raw
text; an empty string clears `dewPoint`; an unparseable string returns
early; otherwise convert to Celsius and, when a stored temperature exists
and the new dew point would exceed it, cap the dew point at the
temperature, else store it as given. -/
def handleDewPointInputChange (value : String) (s : AppState) : AppState :=
  let s1 := { s with dewPointInput := value }
  if value = "" then
    { s1 with dewPoint := none }
  else
    match parseFloat value with
    | none => s1
    | some numValue =>
      let dewPointCelsius := if s.tempUnit = TUnit.F then fToC numValue else numValue
      let tempCelsius := match s.temp with | some t => t | none => 0
      if dewPointCelsius > tempCelsius ∧ s.temp.isSome = true then
        let cappedDewPoint := if s.tempUnit = TUnit.F then cToF tempCelsius else tempCelsius
        { s1 with dewPoint := some tempCelsius,
                  dewPointInput := numToString cappedDewPoint }
      else
        { s1 with dewPoint := some dewPointCelsius }

/-- The effect at `App.tsx` lines 29–38 together with `setTempUnit`: switch
the display unit and re-render the two input boxes from the stored Celsius
values.  `temp` and `dewPoint` themselves are untouched. -/
def handleUnitChange (u : TUnit) (s : AppState) : AppState :=
  let s1 := { s with tempUnit := u }
  let s2 :=
    match s.temp with
    | some tempNum =>
      { s1 with tempInput := numToString (if u = TUnit.F then cToF tempNum else tempNum) }
    | none => s1
  match s.dewPoint with
  | some dewPointNum =>
    { s2 with dewPointInput := numToString (if u = TUnit.F then cToF dewPointNum else dewPointNum) }
  | none => s2

/-- The clamping invariant of the UI state: whenever both the stored
temperature and the stored dew point are present, the dew point does not
exceed the temperature (both in Celsius). -/
def dewNotAboveTemp (s : AppState) : Prop :=
  match s.temp, s.dewPoint with
  | some t, some d => d ≤ t
  | _, _ => True

/-! ## Theorems -/

/-- Claim C1: for every pair of (finite) Celsius inputs, the classifier's
rule chain returns exactly the category of the first matching row of the
spec's priority-ordered rule table, with `No icing` when no row matches. -/
theorem icingRisk_first_match (T d : ℚ) :
    icingRiskCore T d = specIcingCategory T d := by
  simp only [icingRiskCore, specIcingCategory, specRules, ge_iff_le]
  by_cases h1 : 0 ≤ T ∧ T ≤ 20 ∧ 0 ≤ T - d ∧ T - d ≤ 8
  · simp only [if_pos h1, List.find?, decide_eq_true h1]
  · simp only [if_neg h1, List.find?, decide_eq_false h1]
    by_cases h2 : 0 ≤ T ∧ T ≤ 20 ∧ 0 ≤ T - d ∧ T - d ≤ 12
    · simp only [if_pos h2, decide_eq_true h2]
    · simp only [if_neg h2, decide_eq_false h2]
      by_cases h3 : 0 ≤ T ∧ T ≤ 30 ∧ 0 ≤ T - d ∧ T - d ≤ 15
      · simp only [if_pos h3, decide_eq_true h3]
      · simp only [if_neg h3, decide_eq_false h3]
        by_cases h4 : 0 ≤ T ∧ T ≤ 40 ∧ 0 ≤ T - d ∧ T - d ≤ 25
        · simp only [if_pos h4, decide_eq_true h4]
        · simp only [if_neg h4, decide_eq_false h4]

/-- Claim C2: the two unit converters are exact inverses over exact
arithmetic: converting Celsius to Fahrenheit and back is the identity. -/
theorem fToC_cToF_roundTrip (x : ℚ) : fToC (cToF x) = x := by
  simp only [cToF, fToC]
  ring

/-- Claim C3: the classifier returns `none` (JavaScript `null`) exactly when
at least one of the two input strings fails to parse to a number. -/
theorem calculateIcingRisk_none_iff (temp dewPoint : String) :
    calculateIcingRisk temp dewPoint = none ↔
      parseFloat temp = none ∨ parseFloat dewPoint = none := by
  cases h1 : parseFloat temp <;> cases h2 : parseFloat dewPoint <;>
    simp [calculateIcingRisk, h1, h2]

/-- Claim C4: the classifier is total on (finite) numeric inputs — for every
pair it returns exactly one of the five categories, the `No icing` fallback
being the final case. -/
theorem icingRiskCore_total (T d : ℚ) :
    icingRiskCore T d = "Serious icing - any power" ∨
    icingRiskCore T d = "Serious icing - descent power" ∨
    icingRiskCore T d = "Moderate icing - cruise power, or Serious icing - descent power" ∨
    icingRiskCore T d = "Light icing - cruise or descent power" ∨
    icingRiskCore T d = "No icing" := by
  simp only [icingRiskCore]
  split_ifs <;> simp

/-- Claim C5: a negative dew-point depression (dew point above temperature)
always classifies as `No icing`, whatever the temperature: every rule of the
chain requires `0 ≤ D`. -/
theorem negative_depression_no_icing (T d : ℚ) (h : T - d < 0) :
    icingRiskCore T d = "No icing" := by
  simp only [icingRiskCore]
  split_ifs with h1 h2 h3 h4
  · exact absurd h1.2.2.1 (not_le.mpr h)
  · exact absurd h2.2.2.1 (not_le.mpr h)
  · exact absurd h3.2.2.1 (not_le.mpr h)
  · exact absurd h4.2.2.1 (not_le.mpr h)
  · rfl

/-- Claim C5 witness: the spec scenario T = 20, dewPoint = 25
(depression −5) yields `No icing`. -/
theorem negative_depression_no_icing_witness :
    (20 : ℚ) - 25 < 0 ∧ icingRiskCore 20 25 = "No icing" :=
  ⟨by norm_num, negative_depression_no_icing 20 25 (by norm_num)⟩

/-- Claim C6: priority decides overlaps — every input matching rule 1 also
matches the conditions of rules 2, 3 and 4 yet gets rule 1's label, and the
spec scenario T = 10, dewPoint = 0 (rule 2 but not rule 1) gets rule 2's
label. -/
theorem rule_priority_overlap (T d : ℚ)
    (h : 0 ≤ T ∧ T ≤ 20 ∧ 0 ≤ T - d ∧ T - d ≤ 8) :
    (0 ≤ T ∧ T ≤ 20 ∧ 0 ≤ T - d ∧ T - d ≤ 12) ∧
    (0 ≤ T ∧ T ≤ 30 ∧ 0 ≤ T - d ∧ T - d ≤ 15) ∧
    (0 ≤ T ∧ T ≤ 40 ∧ 0 ≤ T - d ∧ T - d ≤ 25) ∧
    icingRiskCore T d = "Serious icing - any power" ∧
    icingRiskCore 10 0 = "Serious icing - descent power" := by
  obtain ⟨h0, h20, hD0, hD8⟩ := h
  refine ⟨⟨h0, h20, hD0, by linarith⟩, ⟨h0, by linarith, hD0, by linarith⟩,
    ⟨h0, by linarith, hD0, by linarith⟩, ?_, ?_⟩
  · simp only [icingRiskCore, ge_iff_le]
    rw [if_pos ⟨h0, h20, hD0, hD8⟩]
  · norm_num [icingRiskCore]

/-- Claim C6 witness: instantiated at the spec scenario T = 10,
dewPoint = 5 (depression 5, rule 1). -/
theorem rule_priority_overlap_witness :
    ((0 : ℚ) ≤ 10 ∧ (10 : ℚ) ≤ 20 ∧ (0 : ℚ) ≤ 10 - 5 ∧ (10 : ℚ) - 5 ≤ 8) ∧
    (((0 : ℚ) ≤ 10 ∧ (10 : ℚ) ≤ 20 ∧ (0 : ℚ) ≤ 10 - 5 ∧ (10 : ℚ) - 5 ≤ 12) ∧
     ((0 : ℚ) ≤ 10 ∧ (10 : ℚ) ≤ 30 ∧ (0 : ℚ) ≤ 10 - 5 ∧ (10 : ℚ) - 5 ≤ 15) ∧
     ((0 : ℚ) ≤ 10 ∧ (10 : ℚ) ≤ 40 ∧ (0 : ℚ) ≤ 10 - 5 ∧ (10 : ℚ) - 5 ≤ 25) ∧
     icingRiskCore 10 5 = "Serious icing - any power" ∧
     icingRiskCore 10 0 = "Serious icing - descent power") :=
  ⟨by norm_num, rule_priority_overlap 10 5 (by norm_num)⟩

/-- Claim C7: noninterference of the display unit — the derived risk depends
only on the stored `temp` and `dewPoint`; two states agreeing on those (and
possibly differing in `tempUnit` or anything else) classify identically. -/
theorem classify_ignores_unit (s1 s2 : AppState)
    (ht : s1.temp = s2.temp) (hd : s1.dewPoint = s2.dewPoint) :
    classifyState s1 = classifyState s2 := by
  simp only [classifyState, ht, hd]

/-- Claim C7 witness: the same Celsius readings under the Celsius and the
Fahrenheit display unit classify identically. -/
theorem classify_ignores_unit_witness :
    (AppState.mk (some 10) (some 5) TUnit.C "10" "5").temp =
      (AppState.mk (some 10) (some 5) TUnit.F "50" "41").temp ∧
    (AppState.mk (some 10) (some 5) TUnit.C "10" "5").dewPoint =
      (AppState.mk (some 10) (some 5) TUnit.F "50" "41").dewPoint ∧
    classifyState (AppState.mk (some 10) (some 5) TUnit.C "10" "5") =
      classifyState (AppState.mk (some 10) (some 5) TUnit.F "50" "41") :=
  ⟨rfl, rfl,
    classify_ignores_unit (AppState.mk (some 10) (some 5) TUnit.C "10" "5")
      (AppState.mk (some 10) (some 5) TUnit.F "50" "41") rfl rfl⟩

/-- Claim C8: the clamping invariant — it holds initially, and both input
handlers preserve it: after a temperature or dew-point input change, a
stored dew point never exceeds the stored temperature (entering a too-high
dew point caps it at the temperature; lowering the temperature below the
dew point pulls the dew point down). -/
theorem clamping_invariant (s : AppState) (value : String) (h : dewNotAboveTemp s) :
    dewNotAboveTemp initialState ∧
    dewNotAboveTemp (handleTempInputChange value s) ∧
    dewNotAboveTemp (handleDewPointInputChange value s) := by
  refine ⟨by simp [dewNotAboveTemp, initialState], ?_, ?_⟩
  · simp only [handleTempInputChange]
    by_cases hv : value = ""
    · simp [if_pos hv, dewNotAboveTemp]
    · rw [if_neg hv]
      cases hp : parseFloat value with
      | none => exact h
      | some numValue =>
        cases hdp : s.dewPoint with
        | none => simp [dewNotAboveTemp, hdp]
        | some dewPointNum =>
          simp only [hdp]
          by_cases hgt : dewPointNum > (if s.tempUnit = TUnit.F then fToC numValue else numValue)
          · simp [if_pos hgt, dewNotAboveTemp]
          · simp [if_neg hgt, dewNotAboveTemp, le_of_not_lt hgt]
  · simp only [handleDewPointInputChange]
    by_cases hv : value = ""
    · simp [if_pos hv, dewNotAboveTemp]
    · rw [if_neg hv]
      cases hp : parseFloat value with
      | none => exact h
      | some numValue =>
        cases ht : s.temp with
        | none => simp [dewNotAboveTemp, ht]
        | some tempNum =>
          simp only [ht]
          by_cases hgt : (if s.tempUnit = TUnit.F then fToC numValue else numValue) > tempNum ∧
              (some tempNum).isSome = true
          · simp [if_pos hgt.1, dewNotAboveTemp, ht]
          · simp only [if_neg hgt]
            have hle : (if s.tempUnit = TUnit.F then fToC numValue else numValue) ≤ tempNum := by
              rcases not_and_or.mp hgt with hng | habs
              · exact le_of_not_lt hng
              · exact absurd rfl habs
            simp [dewNotAboveTemp, ht, hle]

/-- Claim C8 witness: a state holding temperature 15 °C and dew point 12 °C
keeps the invariant when the dew-point input is changed to `20`. -/
theorem clamping_invariant_witness :
    dewNotAboveTemp (AppState.mk (some 15) (some 12) TUnit.C "15" "12") ∧
    (dewNotAboveTemp initialState ∧
     dewNotAboveTemp (handleTempInputChange "20" (AppState.mk (some 15) (some 12) TUnit.C "15" "12")) ∧
     dewNotAboveTemp (handleDewPointInputChange "20" (AppState.mk (some 15) (some 12) TUnit.C "15" "12"))) :=
  ⟨by norm_num [dewNotAboveTemp],
   clamping_invariant (AppState.mk (some 15) (some 12) TUnit.C "15" "12") "20"
     (by norm_num [dewNotAboveTemp])⟩

/-- Claim C9: a non-numeric string with a numeric prefix is not treated as
absent — `parseFloat` extracts the leading number, so `"10abc"` classifies
as a category computed from 10, while strings with no parseable leading
number (`""`, `"abc"`) yield `none`. -/
theorem numeric_prefix_not_absent :
    parseFloat "10abc" = some 10 ∧
    calculateIcingRisk "10abc" "5" = some "Serious icing - any power" ∧
    parseFloat "abc" = none ∧
    calculateIcingRisk "abc" "5" = none ∧
    calculateIcingRisk "" "5" = none := by
  have h10 : parseFloatParts "10abc".data = some ⟨1, 10, 0, 0, 0⟩ := by decide
  have h5 : parseFloatParts "5".data = some ⟨1, 5, 0, 0, 0⟩ := by decide
  have p10 : parseFloat "10abc" = some 10 := by
    rw [parseFloat, h10]
    norm_num [partsValue]
  have p5 : parseFloat "5" = some 5 := by
    rw [parseFloat, h5]
    norm_num [partsValue]
  have pabc : parseFloat "abc" = none := by decide
  have pemp : parseFloat "" = none := by decide
  refine ⟨p10, ?_, pabc, ?_, ?_⟩
  · simp only [calculateIcingRisk, p10, p5]
    norm_num [icingRiskCore]
  · simp [calculateIcingRisk, pabc]
  · simp [calculateIcingRisk, pemp]

/-- Claim C10: frame of the early `NaN` return — a non-empty unparseable
input updates only the raw text field, leaving the stored Celsius values
(and hence the derived risk) unchanged; only the empty string clears the
stored value. -/
theorem nan_input_frame (s : AppState) (value : String)
    (hne : value ≠ "") (hp : parseFloat value = none) :
    handleTempInputChange value s = { s with tempInput := value } ∧
    handleDewPointInputChange value s = { s with dewPointInput := value } ∧
    classifyState (handleTempInputChange value s) = classifyState s ∧
    classifyState (handleDewPointInputChange value s) = classifyState s ∧
    handleTempInputChange "" s = { s with tempInput := "", temp := none } ∧
    handleDewPointInputChange "" s = { s with dewPointInput := "", dewPoint := none } := by
  have h1 : handleTempInputChange value s = { s with tempInput := value } := by
    simp [handleTempInputChange, hne, hp]
  have h2 : handleDewPointInputChange value s = { s with dewPointInput := value } := by
    simp [handleDewPointInputChange, hne, hp]
  refine ⟨h1, h2, ?_, ?_, ?_, ?_⟩
  · rw [h1]
    rfl
  · rw [h2]
    rfl
  · simp [handleTempInputChange]
  · simp [handleDewPointInputChange]

/-- Claim C10 witness: instantiated at the input `"abc"` on a state holding
temperature 10 °C and dew point 5 °C. -/
theorem nan_input_frame_witness :
    ("abc" : String) ≠ "" ∧ parseFloat "abc" = none ∧
    (handleTempInputChange "abc" (AppState.mk (some 10) (some 5) TUnit.C "10" "5") =
       { AppState.mk (some 10) (some 5) TUnit.C "10" "5" with tempInput := "abc" } ∧
     handleDewPointInputChange "abc" (AppState.mk (some 10) (some 5) TUnit.C "10" "5") =
       { AppState.mk (some 10) (some 5) TUnit.C "10" "5" with dewPointInput := "abc" } ∧
     classifyState (handleTempInputChange "abc" (AppState.mk (some 10) (some 5) TUnit.C "10" "5")) =
       classifyState (AppState.mk (some 10) (some 5) TUnit.C "10" "5") ∧
     classifyState (handleDewPointInputChange "abc" (AppState.mk (some 10) (some 5) TUnit.C "10" "5")) =
       classifyState (AppState.mk (some 10) (some 5) TUnit.C "10" "5") ∧
     handleTempInputChange "" (AppState.mk (some 10) (some 5) TUnit.C "10" "5") =
       { AppState.mk (some 10) (some 5) TUnit.C "10" "5" with tempInput := "", temp := none } ∧
     handleDewPointInputChange "" (AppState.mk (some 10) (some 5) TUnit.C "10" "5") =
       { AppState.mk (some 10) (some 5) TUnit.C "10" "5" with dewPointInput := "", dewPoint := none }) :=
  ⟨by decide, by decide,
   nan_input_frame (AppState.mk (some 10) (some 5) TUnit.C "10" "5") "abc"
     (by decide) (by decide)⟩
